import Mathlib

/-!
Verification of the raspessence repository against its specification.

The development shallowly embeds the Python sources:
  - `raspessence/lintronic.py`: the framed serial protocol codec
    (`write_message_to_lintronic`, `handle_incoming_message`);
  - `raspessence/main.py`: the event coordinator (`volume_handler`,
    `playback_handler`, `power_off_handler`, `start_shutdown_timer`,
    `shutdown_timer`), with the cooperative asyncio timer tasks modelled
    as an explicit transition system;
  - `raspessence/dbus.py`: only `send_spotify_command`, as an optional
    session handle.

Bytes are modelled as `Nat` (Python iterates `bytes` as ints), byte strings
as `List Nat`, and the float volume as a rational number (the code only
compares volumes, and comparison of float values is exact).
-/

set_option maxHeartbeats 1000000

/-- The byte values of an ASCII string literal, as Python sees a `bytes`
literal: a list of integer byte values. -/
def bytesOfString (s : String) : List Nat := s.data.map Char.toNat

/-- Decimal digits of a natural number, most significant first, computed
with explicit fuel so the definition is structural (fuel `n + 1` always
suffices, see `decimalDigitsAux_spec` style lemmas below).  Mirrors the
digits produced by Python decimal formatting of a nonnegative int. -/
def decimalDigitsAux : Nat → Nat → List Nat
  | 0, _ => []
  | fuel + 1, n => if n < 10 then [n] else decimalDigitsAux fuel (n / 10) ++ [n % 10]

/-- Python `f"{n:03}"` for a nonnegative int `n`: the decimal digits of `n`
as ASCII bytes, zero-padded on the left to a minimum width of 3. -/
def pyFormat03 (n : Nat) : List Nat :=
  let ds := (decimalDigitsAux (n + 1) n).map (fun d => 48 + d)
  List.replicate (3 - ds.length) 48 ++ ds

/-- Numeric value of a string of ASCII decimal digit bytes (most
significant first).  Used to state what the repeat-count and checksum
fields of a frame denote. -/
def decValue (bs : List Nat) : Nat := bs.foldl (fun a b => a * 10 + (b - 48)) 0

-- Constants of raspessence/lintronic.py.

def LINTRONIC_ADDRESS : List Nat := bytesOfString "01"
def OUR_ADDRESS : List Nat := bytesOfString "00"
def START_OF_TRANSMISSION : List Nat := bytesOfString "<"
def END_OF_TRANSMISSION : List Nat := bytesOfString ">"
def MAGIC_SUFFIX : List Nat := bytesOfString "024"

/-- The `BeoCommand` enum of raspessence/lintronic.py. -/
inductive BeoCommand where
  | VOLUME_DOWN
  | VOLUME_UP
  | AUDIO_AUX
  | AUDIO_NEXT
  | AUDIO_PREV
  | AUDIO_PAUSE
  | AUDIO_PLAY
  | A_TAPE2
  | AUDIO_POWER_OFF
deriving DecidableEq

/-- The fixed payload blob of each `BeoCommand` (the `value` of the Python
enum member). -/
def BeoCommand.value : BeoCommand → List Nat
  | .VOLUME_DOWN => bytesOfString "040255010010701001100000000000000"
  | .VOLUME_UP => bytesOfString "040255010010701000096000000000000"
  | .AUDIO_AUX => bytesOfString "040255010010701001131000000000000"
  | .AUDIO_NEXT => bytesOfString "040255010010701001052000000000000"
  | .AUDIO_PREV => bytesOfString "040255010010701001050000000000000"
  | .AUDIO_PAUSE => bytesOfString "040255010010701001054000000000000"
  | .AUDIO_PLAY => bytesOfString "040255010010701001053000000000000"
  | .A_TAPE2 => bytesOfString "040255010010701001148000000000000"
  | .AUDIO_POWER_OFF => bytesOfString "040255010010701001012000000000000"

/-- `LinTronicConnection.write_message_to_lintronic` from
raspessence/lintronic.py, as the byte string written to the serial stream:
```
binary_repeat_count = bytes(f"{repeat_count:03}", "ascii")
msg = LINTRONIC_ADDRESS + OUR_ADDRESS + beo_command.value
      + binary_repeat_count + MAGIC_SUFFIX
checksum = bytes(f"{sum(c for c in msg) % 256:03}", "ascii")
message = START_OF_TRANSMISSION + msg + checksum + END_OF_TRANSMISSION
```
-/
def write_message_to_lintronic (beo_command : BeoCommand) (repeat_count : Nat) :
    List Nat :=
  let binary_repeat_count := pyFormat03 repeat_count
  let msg := LINTRONIC_ADDRESS ++ OUR_ADDRESS ++ beo_command.value ++
    binary_repeat_count ++ MAGIC_SUFFIX
  let checksum := pyFormat03 (msg.sum % 256)
  START_OF_TRANSMISSION ++ msg ++ checksum ++ END_OF_TRANSMISSION

/-- The frame layout as the specification words it: destination, source,
command payload, zero-padded 3-digit repeat count, magic suffix, then the
checksum (mod-256 sum of all bytes from destination through magic suffix,
zero-padded 3-digit decimal), wrapped in start and end markers.  Written
from the words of the spec, to be compared with the source embedding
`write_message_to_lintronic`. -/
def encodeSpec (cmd : BeoCommand) (repeatCount : Nat) : List Nat :=
  let body := bytesOfString "01" ++ bytesOfString "00" ++ cmd.value ++
    pyFormat03 repeatCount ++ bytesOfString "024"
  bytesOfString "<" ++ body ++ pyFormat03 (body.sum % 256) ++ bytesOfString ">"

/-- `asyncio.StreamReader.readexactly k`: the first `k` bytes of the stream
and the remainder, or failure when fewer than `k` bytes arrive. -/
def readexactly (k : Nat) (s : List Nat) : Option (List Nat × List Nat) :=
  if s.length < k then none else some (s.take k, s.drop k)

/-- `asyncio.StreamReader.readuntil sep` for a one-byte separator: the bytes
up to and including the first occurrence of `sep`, and the remainder, or
failure when `sep` never arrives. -/
def readuntil (sep : Nat) : List Nat → Option (List Nat × List Nat)
  | [] => none
  | x :: xs =>
    if x = sep then some ([x], xs)
    else
      match readuntil sep xs with
      | none => none
      | some (p, r) => some (x :: p, r)

/-- Outcome of `LinTronicConnection.handle_incoming_message`: each early
`return` of the Python method is one constructor. -/
inductive IncomingResult where
  | streamError
  | wrongDestination
  | wrongSource
  | invalidChecksum
  | accepted (cmd data : List Nat)
deriving DecidableEq

/-- `LinTronicConnection.handle_incoming_message` from
raspessence/lintronic.py, applied to the bytes that follow a start marker:
reads 2 bytes destination, 2 bytes source, 3 bytes command, then up to the
end marker; slices `data = data_and_checksum[:-4]` and
`checksum = data_and_checksum[-3:-1]` (Python slice semantics, with
clamping), recomputes `f"{sum(msg) % 256:03}"` over
destination + source + command + data and compares. -/
def handle_incoming_message (s : List Nat) : IncomingResult :=
  match readexactly 2 s with
  | none => .streamError
  | some (to_address, s1) =>
    if to_address ≠ OUR_ADDRESS then .wrongDestination
    else
      match readexactly 2 s1 with
      | none => .streamError
      | some (from_address, s2) =>
        if from_address ≠ LINTRONIC_ADDRESS then .wrongSource
        else
          match readexactly 3 s2 with
          | none => .streamError
          | some (cmd, s3) =>
            match readuntil 62 s3 with
            | none => .streamError
            | some (data_and_checksum, _) =>
              let n := data_and_checksum.length
              let data := data_and_checksum.take (n - 4)
              let checksum :=
                (data_and_checksum.drop (n - 3)).take ((n - 1) - (n - 3))
              let msg := to_address ++ from_address ++ cmd ++ data
              let expected_checksum := pyFormat03 (msg.sum % 256)
              if checksum ≠ expected_checksum then .invalidChecksum
              else .accepted cmd data

/-- The checksum bytes transmitted inside an encoded frame: the checksum
the writer computes over destination + source + payload + repeat count +
magic suffix. -/
def transmitted_checksum (cmd : BeoCommand) (rc : Nat) : List Nat :=
  pyFormat03
    ((LINTRONIC_ADDRESS ++ OUR_ADDRESS ++ cmd.value ++ pyFormat03 rc ++
      MAGIC_SUFFIX).sum % 256)

/-- An encoded frame routed back to this host (destination and source
swapped to our address and the LinTronic address, as a frame arriving on
the receive path must be), with the start marker already consumed by
`listen_for_incoming_messages`. -/
def incoming_frame_to_us (cmd : BeoCommand) (rc : Nat) : List Nat :=
  OUR_ADDRESS ++ LINTRONIC_ADDRESS ++ cmd.value ++ pyFormat03 rc ++
    MAGIC_SUFFIX ++ transmitted_checksum cmd rc ++ END_OF_TRANSMISSION

-- Arithmetic facts about the decimal formatting helpers.

lemma decimalDigitsAux_len_le (fuel k : Nat) :
    ∀ n, 1 ≤ k → n < 10 ^ k → (decimalDigitsAux fuel n).length ≤ k := by
  induction fuel generalizing k with
  | zero => intro n _ _; simp [decimalDigitsAux]
  | succ fuel ih =>
    intro n hk hn
    by_cases h : n < 10
    · simpa [decimalDigitsAux, h] using hk
    · have hk2 : 2 ≤ k := by
        rcases Nat.lt_or_ge k 2 with hlt | hge
        · exfalso
          have hk1 : k = 1 := by omega
          subst hk1
          rw [pow_one] at hn
          omega
        · exact hge
      have hrec : n / 10 < 10 ^ (k - 1) := by
        have h10 : 10 ^ k = 10 ^ (k - 1) * 10 := by
          have : k - 1 + 1 = k := by omega
          calc 10 ^ k = 10 ^ (k - 1 + 1) := by rw [this]
            _ = 10 ^ (k - 1) * 10 := pow_succ 10 (k - 1)
        apply Nat.div_lt_of_lt_mul
        omega
      have := ih (k - 1) (n / 10) (by omega) hrec
      simp only [decimalDigitsAux, if_neg h, List.length_append,
        List.length_singleton]
      omega

lemma decimalDigitsAux_digit_le (fuel : Nat) :
    ∀ n d, d ∈ decimalDigitsAux fuel n → d ≤ 9 := by
  induction fuel with
  | zero => intro n d hd; simp [decimalDigitsAux] at hd
  | succ fuel ih =>
    intro n d hd
    by_cases h : n < 10
    · simp [decimalDigitsAux, h] at hd
      omega
    · simp only [decimalDigitsAux, if_neg h, List.mem_append,
        List.mem_singleton] at hd
      rcases hd with hd | hd
      · exact ih _ _ hd
      · omega

lemma decimalDigitsAux_foldl (fuel : Nat) :
    ∀ n a, n < fuel →
      (decimalDigitsAux fuel n).foldl (fun acc d => acc * 10 + d) a =
        a * 10 ^ (decimalDigitsAux fuel n).length + n := by
  induction fuel with
  | zero => intro n a h; omega
  | succ fuel ih =>
    intro n a h
    by_cases h10 : n < 10
    · simp [decimalDigitsAux, h10]
    · have hdiv : n / 10 < fuel := by
        have h1 : n / 10 < n := Nat.div_lt_self (by omega) (by omega)
        omega
      have h2 : n / 10 * 10 + n % 10 = n := by omega
      simp only [decimalDigitsAux, if_neg h10, List.foldl_append,
        List.foldl_cons, List.foldl_nil, List.length_append,
        List.length_singleton]
      rw [ih (n / 10) a hdiv, pow_succ]
      calc (a * 10 ^ (decimalDigitsAux fuel (n / 10)).length + n / 10) * 10 +
            n % 10
          = a * (10 ^ (decimalDigitsAux fuel (n / 10)).length * 10) +
            (n / 10 * 10 + n % 10) := by ring
        _ = a * (10 ^ (decimalDigitsAux fuel (n / 10)).length * 10) + n := by
            rw [h2]

lemma pyFormat03_length {n : Nat} (h : n < 1000) : (pyFormat03 n).length = 3 := by
  have hlen : (decimalDigitsAux (n + 1) n).length ≤ 3 :=
    decimalDigitsAux_len_le (n + 1) 3 n (by omega) (by omega)
  simp only [pyFormat03, List.length_append, List.length_replicate,
    List.length_map]
  omega

lemma pyFormat03_digits (n : Nat) : ∀ b ∈ pyFormat03 n, 48 ≤ b ∧ b ≤ 57 := by
  intro b hb
  simp only [pyFormat03, List.mem_append, List.mem_replicate, List.mem_map] at hb
  rcases hb with hb | ⟨d, hd, rfl⟩
  · omega
  · have := decimalDigitsAux_digit_le (n + 1) n d hd
    omega

lemma decValue_replicate48 (k : Nat) (rest : List Nat) :
    decValue (List.replicate k 48 ++ rest) = decValue rest := by
  induction k with
  | zero => simp
  | succ k ih =>
    simpa [decValue, List.replicate_succ] using ih

lemma decValue_pyFormat03 (n : Nat) : decValue (pyFormat03 n) = n := by
  simp only [pyFormat03]
  rw [decValue_replicate48]
  unfold decValue
  rw [List.foldl_map]
  have heq : ∀ a d, a * 10 + (48 + d - 48) = a * 10 + d := by intro a d; omega
  calc (decimalDigitsAux (n + 1) n).foldl (fun a d => a * 10 + (48 + d - 48)) 0
      = (decimalDigitsAux (n + 1) n).foldl (fun a d => a * 10 + d) 0 := by
        congr 1
        funext a d
        omega
    _ = 0 * 10 ^ (decimalDigitsAux (n + 1) n).length + n :=
        decimalDigitsAux_foldl (n + 1) n 0 (by omega)
    _ = n := by ring_nf

-- Behaviour of the stream reading primitives on already-split streams.

lemma readexactly_append (k : Nat) (a b : List Nat) (h : a.length = k) :
    readexactly k (a ++ b) = some (a, b) := by
  subst h
  simp [readexactly, List.take_left, List.drop_left]

lemma readuntil_append (sep : Nat) (xs rest : List Nat)
    (h : ∀ x ∈ xs, x ≠ sep) :
    readuntil sep (xs ++ sep :: rest) = some (xs ++ [sep], rest) := by
  induction xs with
  | nil => simp [readuntil]
  | cons x xs ih =>
    have hx : x ≠ sep := h x (by simp)
    have ih2 := ih (fun y hy => h y (by simp [hy]))
    simp only [List.cons_append, readuntil, if_neg hx, List.append_eq, ih2]

/-- Every frame arriving on the receive path whose body (after the command
code, before the end marker) is at least 3 bytes long is rejected with a
checksum failure: the code compares the 2-byte slice
`data_and_checksum[-3:-1]` with the 3-byte recomputed checksum, and a
2-byte string never equals a 3-byte string. -/
lemma handle_incoming_rejects_all (cmdB X rest : List Nat)
    (hc : cmdB.length = 3) (hX : ∀ x ∈ X, x ≠ 62) (hX3 : 3 ≤ X.length) :
    handle_incoming_message
      (OUR_ADDRESS ++ (LINTRONIC_ADDRESS ++ (cmdB ++ (X ++ 62 :: rest)))) =
      .invalidChecksum := by
  have h1 := readexactly_append 2 OUR_ADDRESS
    (LINTRONIC_ADDRESS ++ (cmdB ++ (X ++ 62 :: rest))) (by decide)
  have h2 := readexactly_append 2 LINTRONIC_ADDRESS
    (cmdB ++ (X ++ 62 :: rest)) (by decide)
  have h3 := readexactly_append 3 cmdB (X ++ 62 :: rest) hc
  have h4 := readuntil_append 62 X rest hX
  simp only [handle_incoming_message, h1, h2, h3, h4, ne_eq,
    not_true_eq_false, if_false, reduceIte]
  have hlen : (X ++ [62]).length = X.length + 1 := by simp
  have hslice :
      (((X ++ [62]).drop ((X ++ [62]).length - 3)).take
        (((X ++ [62]).length - 1) - ((X ++ [62]).length - 3))).length = 2 := by
    rw [List.length_take, List.length_drop, hlen]
    omega
  have hexp : (pyFormat03 ((OUR_ADDRESS ++ LINTRONIC_ADDRESS ++ cmdB ++
      (X ++ [62]).take ((X ++ [62]).length - 4)).sum % 256)).length = 3 :=
    pyFormat03_length (by omega)
  have hne : ((X ++ [62]).drop ((X ++ [62]).length - 3)).take
        (((X ++ [62]).length - 1) - ((X ++ [62]).length - 3)) ≠
      pyFormat03 ((OUR_ADDRESS ++ LINTRONIC_ADDRESS ++ cmdB ++
        (X ++ [62]).take ((X ++ [62]).length - 4)).sum % 256) := by
    intro heq
    have := congrArg List.length heq
    rw [hslice, hexp] at this
    omega
  rw [if_pos hne]

lemma value_length (cmd : BeoCommand) : (BeoCommand.value cmd).length = 33 := by
  cases cmd <;> decide

lemma value_digits (cmd : BeoCommand) :
    ∀ b ∈ BeoCommand.value cmd, 48 ≤ b ∧ b ≤ 57 := by
  cases cmd <;> decide

/-- C1.  The claim is half right: recomputing the mod-256 checksum over
destination + source + command + payload does reproduce the 3-byte
transmitted checksum (first conjunct, stated over the frame bytes exactly
as the receive path reads them).  But the receive path is NOT able to
accept the frame: it extracts the received checksum as
`data_and_checksum[-3:-1]`, which is 2 bytes (the final byte of
`data_and_checksum` is the end marker), and compares it against the 3-byte
recomputed checksum, so every encoded frame is rejected with a checksum
failure (second conjunct).  The slice should have been
`data_and_checksum[-4:-1]`. -/
theorem raspessence_C1_checksum_roundtrip_rejected (cmd : BeoCommand)
    (rc : Nat) :
    pyFormat03 ((OUR_ADDRESS ++ LINTRONIC_ADDRESS ++ cmd.value.take 3 ++
        (cmd.value.drop 3 ++ pyFormat03 rc ++ MAGIC_SUFFIX)).sum % 256) =
      transmitted_checksum cmd rc ∧
    handle_incoming_message (incoming_frame_to_us cmd rc) =
      .invalidChecksum := by
  constructor
  · have hvs := congrArg List.sum (List.take_append_drop 3 cmd.value)
    simp only [List.sum_append] at hvs ⊢
    unfold transmitted_checksum
    simp only [List.sum_append]
    congr 1
    omega
  · have hshape : incoming_frame_to_us cmd rc =
        OUR_ADDRESS ++ (LINTRONIC_ADDRESS ++ (cmd.value.take 3 ++
          ((cmd.value.drop 3 ++ pyFormat03 rc ++ MAGIC_SUFFIX ++
            transmitted_checksum cmd rc) ++ 62 :: []))) := by
      have hend : END_OF_TRANSMISSION = 62 :: [] := by decide
      unfold incoming_frame_to_us
      rw [hend]
      simp only [List.append_assoc]
      conv_lhs => rw [← List.take_append_drop 3 cmd.value]
      simp only [List.append_assoc]
    rw [hshape]
    apply handle_incoming_rejects_all
    · have := value_length cmd
      rw [List.length_take]
      omega
    · intro x hx
      simp only [List.append_assoc, List.mem_append] at hx
      rcases hx with hx | hx | hx | hx
      · have := value_digits cmd x (List.mem_of_mem_drop hx)
        omega
      · have := pyFormat03_digits rc x hx
        omega
      · have : (48 ≤ x ∧ x ≤ 57) := by
          have hm : MAGIC_SUFFIX = [48, 50, 52] := by decide
          rw [hm] at hx
          simp at hx
          rcases hx with rfl | rfl | rfl <;> omega
        omega
      · have := pyFormat03_digits
          ((LINTRONIC_ADDRESS ++ OUR_ADDRESS ++ cmd.value ++ pyFormat03 rc ++
            MAGIC_SUFFIX).sum % 256) x hx
        omega
    · have := value_length cmd
      simp only [List.length_append, List.length_drop]
      omega

/-- C2 (amended to repeat counts of at most 999).  The encoder emits
exactly: start marker, destination "01", source "00", the fixed payload
blob of the command, the repeat count as zero-padded 3-digit decimal
ASCII, the magic suffix "024", the checksum ((sum of all byte values from
destination through magic suffix) mod 256, zero-padded 3-digit decimal
ASCII), then the end marker.  Stated as agreement with the spec-side
layout `encodeSpec` plus explicit 3-byte fields whose decimal values are
the repeat count and the mod-256 checksum. -/
theorem raspessence_C2_encode_layout (cmd : BeoCommand) (rc : Nat)
    (h : rc ≤ 999) :
    write_message_to_lintronic cmd rc = encodeSpec cmd rc ∧
    ∃ r c, r.length = 3 ∧ c.length = 3 ∧ decValue r = rc ∧
      decValue c = (bytesOfString "01" ++ bytesOfString "00" ++ cmd.value ++
        r ++ bytesOfString "024").sum % 256 ∧
      write_message_to_lintronic cmd rc =
        bytesOfString "<" ++ (bytesOfString "01" ++ (bytesOfString "00" ++
          (cmd.value ++ (r ++ (bytesOfString "024" ++
            (c ++ bytesOfString ">")))))) := by
  refine ⟨rfl, pyFormat03 rc,
    pyFormat03 ((bytesOfString "01" ++ bytesOfString "00" ++ cmd.value ++
      pyFormat03 rc ++ bytesOfString "024").sum % 256),
    pyFormat03_length (by omega), pyFormat03_length (by omega),
    decValue_pyFormat03 rc, decValue_pyFormat03 _, ?_⟩
  simp [write_message_to_lintronic, LINTRONIC_ADDRESS, OUR_ADDRESS,
    MAGIC_SUFFIX, START_OF_TRANSMISSION, END_OF_TRANSMISSION,
    List.append_assoc]

/-- Witness for C2: the amended layout theorem applied at
`BeoCommand.VOLUME_UP` with repeat count 10 (the repeat count the code
actually uses in `power_off_handler`). -/
theorem raspessence_C2_encode_layout_witness :
    write_message_to_lintronic BeoCommand.VOLUME_UP 10 =
      encodeSpec BeoCommand.VOLUME_UP 10 ∧
    ∃ r c, r.length = 3 ∧ c.length = 3 ∧ decValue r = 10 ∧
      decValue c = (bytesOfString "01" ++ bytesOfString "00" ++
        BeoCommand.VOLUME_UP.value ++ r ++ bytesOfString "024").sum % 256 ∧
      write_message_to_lintronic BeoCommand.VOLUME_UP 10 =
        bytesOfString "<" ++ (bytesOfString "01" ++ (bytesOfString "00" ++
          (BeoCommand.VOLUME_UP.value ++ (r ++ (bytesOfString "024" ++
            (c ++ bytesOfString ">")))))) :=
  raspessence_C2_encode_layout BeoCommand.VOLUME_UP 10 (by decide)

/-- Counterexample to C2 as stated: the claim quantifies over every repeat
count, but Python `f"{repeat_count:03}"` zero-pads to a MINIMUM width of
3, so at repeat count 1000 the repeat field has 4 digits and the frame has
49 bytes, while the claimed layout (3-digit repeat field) always yields 48
bytes for this command. -/
theorem raspessence_C2_repeat_field_counterexample :
    (write_message_to_lintronic BeoCommand.VOLUME_UP 1000).length = 49 ∧
    (bytesOfString "<").length + (bytesOfString "01").length +
      (bytesOfString "00").length + (BeoCommand.VOLUME_UP.value).length +
      3 + (bytesOfString "024").length + 3 +
      (bytesOfString ">").length = 48 := by
  decide

example : write_message_to_lintronic BeoCommand.VOLUME_UP 1 =
    bytesOfString "<0100040255010010701000096000000000000001024065>" := by decide

-- The event coordinator of raspessence/main.py.

/-- `timedelta(minutes=5).total_seconds()`. -/
def FIVE_MINUTES : Nat := 5 * 60

/-- `timedelta(minutes=15).total_seconds()`. -/
def FIFTEEN_MINUTES : Nat := 15 * 60

/-- The `PlaybackStatus` enum of raspessence/main.py. -/
inductive PlaybackStatus where
  | PLAYING
  | PAUSED
  | STOPPED
  | UNKNOWN
deriving DecidableEq

/-- The string `value` of each `PlaybackStatus` member. -/
def PlaybackStatus.value : PlaybackStatus → String
  | .PLAYING => "Playing"
  | .PAUSED => "Paused"
  | .STOPPED => "Stopped"
  | .UNKNOWN => "Unknown"

/-- Python `PlaybackStatus(status)`: enum lookup by value, `ValueError`
(here `none`) when no member has that value. -/
def PlaybackStatus.fromValue (s : String) : Option PlaybackStatus :=
  if s = "Playing" then some .PLAYING
  else if s = "Paused" then some .PAUSED
  else if s = "Stopped" then some .STOPPED
  else if s = "Unknown" then some .UNKNOWN
  else none

/-- The `State` attrs class of raspessence/main.py.  The float volume is
modelled as a rational number; the code only ever compares volumes, and
comparison of float values is exact. -/
structure State where
  last_known_volume : ℚ
  last_known_playback_status : PlaybackStatus
deriving DecidableEq

/-- `State()` with its field defaults, as `MainHandler.__init__` builds it. -/
def initState : State :=
  { last_known_volume := mkRat 1 2, last_known_playback_status := .UNKNOWN }

/-- Externally visible effects of the coordinator, in program order.  A
`write` carries `some id` when it is performed by the shutdown timer task
with that identity, and `none` when performed directly by a handler.  The
two warnings that the claims mention are modelled; debug/info logging is
not. -/
inductive Effect where
  | write (src : Option Nat) (cmd : BeoCommand) (rc : Nat)
  | sleepFor (seconds : Nat)
  | spotifyPause
  | warnNoSpotify
  | warnUnknownStatus
  | warnTimerStale
deriving DecidableEq

/-- The cooperative system around one `MainHandler`: its `State`, its
`shutdown_timer_task` reference, the set of timer tasks currently
suspended in `asyncio.sleep` (as pairs of a fresh task identity and the
timeout in seconds), a counter supplying fresh task identities, the
optional spotifyd session of the `DbusHandler`, and the log of visible
effects.  A task cancelled while suspended in `asyncio.sleep` has
`CancelledError` raised at the sleep and never runs the rest of its body,
so cancellation removes the task from `sleeping`; only tasks still in
`sleeping` can wake. -/
structure Sys where
  state : State
  shutdown_timer_task : Option Nat
  sleeping : List (Nat × Nat)
  nextId : Nat
  spotify_handler : Option Unit
  log : List Effect
deriving DecidableEq

/-- The coordinator system as `MainHandler.create` leaves it (no timer, no
pending tasks, empty history; the spotifyd session may or may not exist,
taken absent here and changed by session steps). -/
def initSys : Sys :=
  { state := initState, shutdown_timer_task := none, sleeping := [],
    nextId := 0, spotify_handler := none, log := [] }

/-- `MainHandler.start_shutdown_timer`: cancel the previous task if there
is one (removing it from the sleepers — the `CancelledError` is delivered
at its sleep), then create the new timer task, which immediately suspends
in `asyncio.sleep`. -/
def start_shutdown_timer (s : Sys) (timeout : Nat) : Sys :=
  let s1 : Sys :=
    match s.shutdown_timer_task with
    | some tid => { s with sleeping := s.sleeping.filter (fun p => p.1 ≠ tid) }
    | none => s
  { s1 with
    sleeping := s1.sleeping ++ [(s1.nextId, timeout)],
    shutdown_timer_task := some s1.nextId,
    nextId := s1.nextId + 1 }

/-- The body of `MainHandler.shutdown_timer` after the sleep returns: emit
`AUDIO_POWER_OFF` unless the playback status is neither Paused nor
Stopped, in which case only a warning is logged. -/
def shutdown_timer_wake (st : State) : Option (BeoCommand × Nat) :=
  if st.last_known_playback_status = .PAUSED ∨
      st.last_known_playback_status = .STOPPED then
    some (.AUDIO_POWER_OFF, 1)
  else none

/-- A sleeping shutdown timer task waking up: it leaves the sleepers and
runs the rest of `MainHandler.shutdown_timer`. -/
def shutdown_timer_fire (s : Sys) (id : Nat) : Sys :=
  let s1 : Sys := { s with sleeping := s.sleeping.filter (fun p => p.1 ≠ id) }
  match shutdown_timer_wake s.state with
  | some (c, rc) => { s1 with log := s1.log ++ [.write (some id) c rc] }
  | none => { s1 with log := s1.log ++ [.warnTimerStale] }

/-- `MainHandler.volume_handler`: one `VOLUME_UP` write when the new
volume is strictly above the last known one, otherwise one `VOLUME_DOWN`
write; then the last known volume is set to the new value. -/
def volume_handler (s : Sys) (volume : ℚ) : Sys :=
  let cmd : BeoCommand :=
    if volume > s.state.last_known_volume then .VOLUME_UP else .VOLUME_DOWN
  { s with
    log := s.log ++ [.write none cmd 1],
    state := { s.state with last_known_volume := volume } }

/-- `MainHandler.playback_handler`. -/
def playback_handler (s : Sys) (status : String) : Sys :=
  if status = s.state.last_known_playback_status.value then s
  else
    match PlaybackStatus.fromValue status with
    | none =>
      { s with
        log := s.log ++ [.warnUnknownStatus],
        state := { s.state with last_known_playback_status := .UNKNOWN } }
    | some playback_status =>
      let s1 : Sys :=
        match playback_status with
        | .PLAYING =>
          let sA : Sys := { s with log := s.log ++ [.write none .AUDIO_AUX 1] }
          match sA.shutdown_timer_task with
          | some tid =>
            { sA with sleeping := sA.sleeping.filter (fun p => p.1 ≠ tid) }
          | none => sA
        | .PAUSED =>
          let sA : Sys :=
            if s.state.last_known_playback_status = .STOPPED then
              { s with log := s.log ++ [.write none .AUDIO_AUX 1] }
            else s
          start_shutdown_timer sA FIFTEEN_MINUTES
        | .STOPPED => start_shutdown_timer s FIVE_MINUTES
        | .UNKNOWN => s
      { s1 with state :=
        { s1.state with last_known_playback_status := playback_status } }

/-- `MainHandler.power_off_handler`, with
`DbusHandler.send_spotify_command(PAUSE)` inlined (raspessence/dbus.py:
warn and return when there is no spotifyd session, otherwise the session
sends pause). -/
def power_off_handler (s : Sys) : Sys :=
  let s1 : Sys := { s with log := s.log ++ [.write none .VOLUME_DOWN 10] }
  let s2 : Sys := { s1 with log := s1.log ++ [.sleepFor 1] }
  let s3 : Sys :=
    match s2.spotify_handler with
    | none => { s2 with log := s2.log ++ [.warnNoSpotify] }
    | some _ => { s2 with log := s2.log ++ [.spotifyPause] }
  let s4 : Sys := { s3 with log := s3.log ++ [.write none .AUDIO_POWER_OFF 1] }
  let s5 : Sys := { s4 with state :=
    { s4.state with last_known_playback_status := .PAUSED } }
  match s5.shutdown_timer_task with
  | some tid => { s5 with sleeping := s5.sleeping.filter (fun p => p.1 ≠ tid) }
  | none => s5

/-- The spotifyd session appearing or disappearing
(`DbusHandler._on_name_owner_changed`). -/
def set_session (s : Sys) (h : Option Unit) : Sys := { s with spotify_handler := h }

/-- One cooperative scheduling step of the system: a coordinator handler
runs to completion, a sleeping shutdown timer wakes, or the spotifyd
session comes or goes.  Only a task still in `sleeping` can wake, which is
exactly how `asyncio` delivers cancellation to a task suspended in
`asyncio.sleep`. -/
inductive Step : Sys → Sys → Prop where
  | volume (s : Sys) (v : ℚ) : Step s (volume_handler s v)
  | playback (s : Sys) (raw : String) : Step s (playback_handler s raw)
  | power_off (s : Sys) : Step s (power_off_handler s)
  | timer_fire (s : Sys) (id timeout : Nat) (h : (id, timeout) ∈ s.sleeping) :
      Step s (shutdown_timer_fire s id)
  | session (s : Sys) (h : Option Unit) : Step s (set_session s h)

/-- A coordinator state reachable from startup. -/
def Reach (s : Sys) : Prop := Relation.ReflTransGen Step initSys s

/-- The `AUDIO_POWER_OFF` writes performed by the shutdown timer task with
identity `id`. -/
def timerWrites (id : Nat) (log : List Effect) : List Effect :=
  log.filter fun a =>
    match a with
    | .write (some i) _ _ => i = id
    | _ => false

/-- Outcome of one `volume_handler` call over a transport whose write can
raise (`StreamWriter.drain` raises when the serial connection is broken):
the commands successfully written, the resulting coordinator `State`, and
whether an exception propagated out of the handler. -/
structure VolumeOutcome where
  written : List (BeoCommand × Nat)
  state : State
  raised : Bool
deriving DecidableEq

/-- `MainHandler.volume_handler` with the transport write modelled as
fallible.  The Python body chooses a branch on
`volume > self.state.last_known_volume`, awaits
`write_message_to_lintronic`, and only then runs
`self.state.last_known_volume = volume`; when the awaited write raises,
the assignment is never reached and the exception propagates. -/
def volume_handler_exn (writeFails : Bool) (st : State) (volume : ℚ) :
    VolumeOutcome :=
  let cmd : BeoCommand :=
    if volume > st.last_known_volume then .VOLUME_UP else .VOLUME_DOWN
  if writeFails then { written := [], state := st, raised := true }
  else
    { written := [(cmd, 1)],
      state := { st with last_known_volume := volume }, raised := false }

/-- C3.  Every volume event makes `volume_handler` write exactly one
command: `VOLUME_UP` exactly when the new volume is strictly greater than
the last known one, and `VOLUME_DOWN` otherwise (including equality);
there is no input on which nothing is written. -/
theorem raspessence_C3_volume_handler_one_command (s : Sys) (v : ℚ) :
    ((volume_handler s v).log =
        s.log ++ [.write none BeoCommand.VOLUME_UP 1] ↔
      v > s.state.last_known_volume) ∧
    ((volume_handler s v).log =
        s.log ++ [.write none BeoCommand.VOLUME_DOWN 1] ↔
      ¬ v > s.state.last_known_volume) ∧
    (volume_handler s v).log.length = s.log.length + 1 := by
  by_cases h : v > s.state.last_known_volume
  · simp [volume_handler, h]
  · simp [volume_handler, h]

/-- Counterexample to C4 as stated: when the transport write raises, the
handler propagates the exception before reaching the assignment, so the
last known volume is NOT updated.  Concretely, from the initial state
(last known volume 1/2), a volume event 4/5 whose write fails leaves the
last known volume at 1/2 (rationals written with mkRat). -/
theorem raspessence_C4_counterexample :
    (volume_handler_exn true initState (mkRat 4 5)).state.last_known_volume ≠
      mkRat 4 5 := by
  decide

/-- C4 (amended).  `volume_handler` updates the last known volume to the
new value whenever the transport write completes, regardless of which
command was chosen and of any response from the amplifier (the protocol
has no acknowledgement); but when the write raises, the exception
propagates out of the handler and the state is left unchanged. -/
theorem raspessence_C4_volume_update (st : State) (v : ℚ) :
    (volume_handler_exn false st v).state.last_known_volume = v ∧
    (volume_handler_exn false st v).raised = false ∧
    (volume_handler_exn true st v).state = st ∧
    (volume_handler_exn true st v).raised = true := by
  by_cases h : v > st.last_known_volume
  · simp [volume_handler_exn, h]
  · simp [volume_handler_exn, h]

lemma cancel_filter (tid : Nat) (l : List (Nat × Nat)) :
    l.filter (fun p => p.1 ≠ tid) =
      l.filter (fun p => (some tid : Option Nat) ≠ some p.1) := by
  apply List.filter_congr
  intro p _
  simp [eq_comm]

lemma filter_none_pred (l : List (Nat × Nat)) :
    l.filter (fun p => (none : Option Nat) ≠ some p.1) = l := by
  induction l with
  | nil => rfl
  | cons x xs ih => simp [List.filter_cons, ih]

/-- The observable shape of a freshly armed shutdown timer, relative to
the coordinator state `s` it was armed from: the handler references a
fresh task, that task is suspended in its sleep with the given timeout,
and whichever task the handler referenced before has been cancelled out of
the sleepers first. -/
def timer_armed (s r : Sys) (timeout : Nat) : Prop :=
  r.shutdown_timer_task = some s.nextId ∧
  r.nextId = s.nextId + 1 ∧
  r.sleeping =
    s.sleeping.filter (fun p => s.shutdown_timer_task ≠ some p.1) ++
      [(s.nextId, timeout)]

lemma start_shutdown_timer_spec (s : Sys) (t : Nat) :
    timer_armed s (start_shutdown_timer s t) t ∧
    (start_shutdown_timer s t).log = s.log ∧
    (start_shutdown_timer s t).state = s.state ∧
    (start_shutdown_timer s t).spotify_handler = s.spotify_handler := by
  cases htask : s.shutdown_timer_task with
  | none =>
    unfold timer_armed
    simp [start_shutdown_timer, htask, filter_none_pred]
  | some tid =>
    unfold timer_armed
    simp [start_shutdown_timer, htask, ← cancel_filter]
    apply List.filter_congr
    intro p _
    simp [eq_comm]

/-- C6.  A "Paused" event from last known status Stopped writes exactly
one `AUDIO_AUX` command and then arms the 15-minute shutdown timer; from
last known status Playing it writes nothing and arms the 15-minute timer;
both set the last known status to Paused (volume untouched). -/
theorem raspessence_C6_paused_transitions (s : Sys) :
    (s.state.last_known_playback_status = .STOPPED →
      (playback_handler s "Paused").log =
        s.log ++ [.write none BeoCommand.AUDIO_AUX 1] ∧
      timer_armed s (playback_handler s "Paused") FIFTEEN_MINUTES ∧
      (playback_handler s "Paused").state =
        { s.state with last_known_playback_status := .PAUSED }) ∧
    (s.state.last_known_playback_status = .PLAYING →
      (playback_handler s "Paused").log = s.log ∧
      timer_armed s (playback_handler s "Paused") FIFTEEN_MINUTES ∧
      (playback_handler s "Paused").state =
        { s.state with last_known_playback_status := .PAUSED }) := by
  constructor
  · intro hst
    have hspec := start_shutdown_timer_spec
      { s with log := s.log ++ [.write none BeoCommand.AUDIO_AUX 1] }
      FIFTEEN_MINUTES
    simp only [playback_handler, hst, PlaybackStatus.value,
      PlaybackStatus.fromValue]
    norm_num
    unfold timer_armed at hspec ⊢
    simp_all
  · intro hst
    have hspec := start_shutdown_timer_spec s FIFTEEN_MINUTES
    simp only [playback_handler, hst, PlaybackStatus.value,
      PlaybackStatus.fromValue]
    norm_num
    unfold timer_armed at hspec ⊢
    simp_all

/-- Witness for C6: from a concrete state with last known status Stopped
(obtained by nothing more than setting the field), and one with Playing. -/
theorem raspessence_C6_paused_transitions_witness :
    ((playback_handler
        { initSys with state :=
          { initState with last_known_playback_status := .STOPPED } }
        "Paused").log =
      [.write none BeoCommand.AUDIO_AUX 1] ∧
      timer_armed
        { initSys with state :=
          { initState with last_known_playback_status := .STOPPED } }
        (playback_handler
          { initSys with state :=
            { initState with last_known_playback_status := .STOPPED } }
          "Paused") FIFTEEN_MINUTES ∧
      (playback_handler
        { initSys with state :=
          { initState with last_known_playback_status := .STOPPED } }
        "Paused").state =
        { initState with last_known_playback_status := .PAUSED }) ∧
    ((playback_handler
        { initSys with state :=
          { initState with last_known_playback_status := .PLAYING } }
        "Paused").log = [] ∧
      timer_armed
        { initSys with state :=
          { initState with last_known_playback_status := .PLAYING } }
        (playback_handler
          { initSys with state :=
            { initState with last_known_playback_status := .PLAYING } }
          "Paused") FIFTEEN_MINUTES ∧
      (playback_handler
        { initSys with state :=
          { initState with last_known_playback_status := .PLAYING } }
        "Paused").state =
        { initState with last_known_playback_status := .PAUSED }) :=
  ⟨(raspessence_C6_paused_transitions _).1 rfl,
   (raspessence_C6_paused_transitions _).2 rfl⟩

/-- C7.  The shutdown timer, after its sleep returns, writes
`AUDIO_POWER_OFF` exactly when the last known playback status at wake time
is Paused or Stopped; on Playing or Unknown it only logs a warning and
changes nothing else. -/
theorem raspessence_C7_shutdown_timer (s : Sys) (id : Nat) :
    ((shutdown_timer_wake s.state).isSome ↔
      (s.state.last_known_playback_status = .PAUSED ∨
        s.state.last_known_playback_status = .STOPPED)) ∧
    ((s.state.last_known_playback_status = .PAUSED ∨
        s.state.last_known_playback_status = .STOPPED) →
      (shutdown_timer_fire s id).log =
        s.log ++ [.write (some id) BeoCommand.AUDIO_POWER_OFF 1]) ∧
    ((s.state.last_known_playback_status = .PLAYING ∨
        s.state.last_known_playback_status = .UNKNOWN) →
      (shutdown_timer_fire s id).log = s.log ++ [.warnTimerStale] ∧
      (shutdown_timer_fire s id).state = s.state ∧
      (shutdown_timer_fire s id).spotify_handler = s.spotify_handler ∧
      (shutdown_timer_fire s id).shutdown_timer_task =
        s.shutdown_timer_task) := by
  cases h : s.state.last_known_playback_status <;>
    simp [shutdown_timer_wake, shutdown_timer_fire, h]

/-- Witness for C7: a timer waking with status Paused writes the power-off
command; one waking with status Playing only warns. -/
theorem raspessence_C7_shutdown_timer_witness :
    (shutdown_timer_fire
      { initSys with state :=
        { initState with last_known_playback_status := .PAUSED } } 0).log =
      [.write (some 0) BeoCommand.AUDIO_POWER_OFF 1] ∧
    (shutdown_timer_fire
      { initSys with state :=
        { initState with last_known_playback_status := .PLAYING } } 0).log =
      [.warnTimerStale] :=
  ⟨(raspessence_C7_shutdown_timer
      { initSys with state :=
        { initState with last_known_playback_status := .PAUSED } } 0).2.1
    (Or.inl rfl),
   ((raspessence_C7_shutdown_timer
      { initSys with state :=
        { initState with last_known_playback_status := .PLAYING } } 0).2.2
    (Or.inl rfl)).1⟩

/-- C8.  `power_off_handler` performs, in program order: one `VOLUME_DOWN`
write with repeat count 10, a 1 second sleep, then pause to the spotifyd
session when one exists and otherwise only a warning (no blocking, no
retry), then one `AUDIO_POWER_OFF` write; it sets the last known playback
status to Paused and cancels the referenced shutdown timer task if one is
armed. -/
theorem raspessence_C8_power_off (s : Sys) :
    (s.spotify_handler = none →
      power_off_handler s = { s with
        log := s.log ++ [.write none BeoCommand.VOLUME_DOWN 10, .sleepFor 1,
          .warnNoSpotify, .write none BeoCommand.AUDIO_POWER_OFF 1],
        state := { s.state with last_known_playback_status := .PAUSED },
        sleeping := s.sleeping.filter
          (fun p => s.shutdown_timer_task ≠ some p.1) }) ∧
    (∀ u, s.spotify_handler = some u →
      power_off_handler s = { s with
        log := s.log ++ [.write none BeoCommand.VOLUME_DOWN 10, .sleepFor 1,
          .spotifyPause, .write none BeoCommand.AUDIO_POWER_OFF 1],
        state := { s.state with last_known_playback_status := .PAUSED },
        sleeping := s.sleeping.filter
          (fun p => s.shutdown_timer_task ≠ some p.1) }) := by
  constructor
  · intro hspot
    cases htask : s.shutdown_timer_task with
    | none => simp [power_off_handler, hspot, htask, filter_none_pred]
    | some tid =>
      simp [power_off_handler, hspot, htask, ← cancel_filter]
      apply List.filter_congr
      intro p _
      simp [eq_comm]
  · intro u hspot
    cases htask : s.shutdown_timer_task with
    | none => simp [power_off_handler, hspot, htask, filter_none_pred]
    | some tid =>
      simp [power_off_handler, hspot, htask, ← cancel_filter]
      apply List.filter_congr
      intro p _
      simp [eq_comm]

/-- Witness for C8: the handler applied at the startup state (no spotifyd
session, no timer). -/
theorem raspessence_C8_power_off_witness :
    power_off_handler initSys = { initSys with
      log := initSys.log ++ [.write none BeoCommand.VOLUME_DOWN 10,
        .sleepFor 1, .warnNoSpotify,
        .write none BeoCommand.AUDIO_POWER_OFF 1],
      state := { initSys.state with last_known_playback_status := .PAUSED },
      sleeping := initSys.sleeping.filter
        (fun p => initSys.shutdown_timer_task ≠ some p.1) } :=
  (raspessence_C8_power_off initSys).1 rfl

lemma fromValue_value (ps : PlaybackStatus) :
    PlaybackStatus.fromValue ps.value = some ps := by
  cases ps <;> rfl

lemma fromValue_eq_some {raw : String} {ps : PlaybackStatus}
    (h : PlaybackStatus.fromValue raw = some ps) : raw = ps.value := by
  unfold PlaybackStatus.fromValue at h
  split_ifs at h with h1 h2 h3 h4
  all_goals cases h
  all_goals simp_all [PlaybackStatus.value]

/-- C9.  An unparseable playback status string makes `playback_handler`
log a warning, write no command, change no timer state, set the last known
status to Unknown and return normally; and the handler short-circuits as a
complete no-op exactly when the raw string textually equals the string
value of the current last known status. -/
theorem raspessence_C9_unknown_status (s : Sys) (raw : String) :
    (PlaybackStatus.fromValue raw = none →
      playback_handler s raw = { s with
        log := s.log ++ [.warnUnknownStatus],
        state := { s.state with last_known_playback_status := .UNKNOWN } }) ∧
    (playback_handler s raw = s ↔
      raw = s.state.last_known_playback_status.value) := by
  constructor
  · intro hparse
    have hne : raw ≠ s.state.last_known_playback_status.value := by
      intro heq
      rw [heq, fromValue_value] at hparse
      exact Option.noConfusion hparse
    simp [playback_handler, hne, hparse]
  · constructor
    · intro heq
      by_contra hne
      have hne2 : playback_handler s raw ≠ s := by
        cases hparse : PlaybackStatus.fromValue raw with
        | none =>
          intro habs
          have hlog := congrArg (fun x => x.log.length) habs
          simp [playback_handler, hne, hparse] at hlog
        | some ps =>
          cases ps with
          | PLAYING =>
            intro habs
            have hlog := congrArg (fun x => x.log.length) habs
            cases htask : s.shutdown_timer_task <;>
              simp [playback_handler, hne, hparse, htask] at hlog
          | PAUSED =>
            intro habs
            have hnid := congrArg (fun x => x.nextId) habs
            by_cases hstop : s.state.last_known_playback_status =
                PlaybackStatus.STOPPED
            · rw [hstop] at hne
              cases htask : s.shutdown_timer_task <;>
                simp [playback_handler, hne, hparse, htask, hstop,
                  start_shutdown_timer] at hnid
            · cases htask : s.shutdown_timer_task <;>
                simp [playback_handler, hne, hparse, htask, hstop,
                  start_shutdown_timer] at hnid
          | STOPPED =>
            intro habs
            have hnid := congrArg (fun x => x.nextId) habs
            cases htask : s.shutdown_timer_task <;>
              simp [playback_handler, hne, hparse, htask,
                start_shutdown_timer] at hnid
          | UNKNOWN =>
            intro habs
            have hraw : raw = PlaybackStatus.UNKNOWN.value :=
              fromValue_eq_some hparse
            have hstat := congrArg
              (fun x => x.state.last_known_playback_status) habs
            simp [playback_handler, hne, hparse] at hstat
            rw [hraw] at hne
            rw [← hstat] at hne
            exact hne rfl
      exact hne2 heq
    · intro heq
      simp [playback_handler, heq]

/-- Witness for C9: at startup (last known status Unknown), the garbage
string "garbage" warns, writes nothing and sets the status to Unknown,
while the raw string "Unknown" is a complete no-op. -/
theorem raspessence_C9_unknown_status_witness :
    (playback_handler initSys "garbage" = { initSys with
      log := initSys.log ++ [.warnUnknownStatus],
      state :=
        { initSys.state with last_known_playback_status := .UNKNOWN } }) ∧
    (playback_handler initSys "Unknown" = initSys ↔
      "Unknown" = initSys.state.last_known_playback_status.value) :=
  ⟨(raspessence_C9_unknown_status initSys "garbage").1 rfl,
   (raspessence_C9_unknown_status initSys "Unknown").2⟩

/-- C10.  `MainHandler.__init__` builds `State()` with last known volume
0.5 and last known playback status Unknown; hence the first volume event
is compared against 0.5 — any value at most 0.5 writes `VOLUME_DOWN` — and
a first raw status string "Unknown" short-circuits as a no-op. -/
theorem raspessence_C10_initial_state (v : ℚ) (hv : v ≤ mkRat 1 2) :
    initState.last_known_volume = mkRat 1 2 ∧
    initState.last_known_playback_status = .UNKNOWN ∧
    (volume_handler initSys v).log =
      [.write none BeoCommand.VOLUME_DOWN 1] ∧
    playback_handler initSys "Unknown" = initSys := by
  refine ⟨rfl, rfl, ?_, rfl⟩
  have hngt : ¬ v > initSys.state.last_known_volume := not_lt.mpr hv
  simp [volume_handler, hngt, initSys, initState, hv]

/-- Witness for C10: the initial-state facts at the concrete volume 3/10
(the 0.3 of the spec scenario). -/
theorem raspessence_C10_initial_state_witness :
    initState.last_known_volume = mkRat 1 2 ∧
    initState.last_known_playback_status = .UNKNOWN ∧
    (volume_handler initSys (mkRat 3 10)).log =
      [.write none BeoCommand.VOLUME_DOWN 1] ∧
    playback_handler initSys "Unknown" = initSys :=
  raspessence_C10_initial_state (mkRat 3 10) (by decide)

/-- Invariant of every reachable coordinator system: every sleeping timer
task is the one the handler currently references and has not yet written
anything; the referenced task identity is below the freshness counter; at
most one task sleeps; and every timer write in the log was made by a task
identity below the freshness counter. -/
def SysInv (s : Sys) : Prop :=
  (∀ p ∈ s.sleeping, s.shutdown_timer_task = some p.1 ∧
    timerWrites p.1 s.log = []) ∧
  (∀ tid, s.shutdown_timer_task = some tid → tid < s.nextId) ∧
  s.sleeping.length ≤ 1 ∧
  (∀ i c rc, Effect.write (some i) c rc ∈ s.log → i < s.nextId)

lemma timerWrites_append (id : Nat) (l1 l2 : List Effect) :
    timerWrites id (l1 ++ l2) = timerWrites id l1 ++ timerWrites id l2 := by
  simp [timerWrites, List.filter_append]

lemma timerWrites_single_skip (id : Nat) (e : Effect)
    (he : ∀ c rc, e ≠ Effect.write (some id) c rc) :
    timerWrites id [e] = [] := by
  cases e with
  | write src c rc =>
    cases src with
    | none => rfl
    | some i =>
      have hne : i ≠ id := by
        intro hcontra
        exact he c rc (by rw [hcontra])
      simp [timerWrites, hne]
  | sleepFor k => rfl
  | spotifyPause => rfl
  | warnNoSpotify => rfl
  | warnUnknownStatus => rfl
  | warnTimerStale => rfl

lemma timerWrites_single_hit (id : Nat) (c : BeoCommand) (rc : Nat) :
    timerWrites id [Effect.write (some id) c rc] =
      [Effect.write (some id) c rc] := by
  simp [timerWrites]

lemma SysInv_generic (s : Sys) (st : State) (sp : Option Unit)
    (L : List Effect)
    (hL : ∀ id, timerWrites id L = timerWrites id s.log)
    (hsrc : ∀ i c rc, Effect.write (some i) c rc ∈ L →
      Effect.write (some i) c rc ∈ s.log)
    (hinv : SysInv s) :
    SysInv ⟨st, s.shutdown_timer_task, s.sleeping, s.nextId, sp, L⟩ := by
  obtain ⟨A, B, C, D⟩ := hinv
  refine ⟨?_, B, C, ?_⟩
  · intro p hp
    exact ⟨(A p hp).1, by rw [hL]; exact (A p hp).2⟩
  · intro i c rc hm
    exact D i c rc (hsrc i c rc hm)

lemma SysInv_filtered (s : Sys) (st : State) (sp : Option Unit)
    (L : List Effect) (tid : Nat)
    (hL : ∀ id, timerWrites id L = timerWrites id s.log)
    (hsrc : ∀ i c rc, Effect.write (some i) c rc ∈ L →
      Effect.write (some i) c rc ∈ s.log)
    (hinv : SysInv s) :
    SysInv ⟨st, s.shutdown_timer_task,
      s.sleeping.filter (fun p => p.1 ≠ tid), s.nextId, sp, L⟩ := by
  obtain ⟨A, B, C, D⟩ := hinv
  refine ⟨?_, B, ?_, ?_⟩
  · intro p hp
    have hp2 : p ∈ s.sleeping := List.mem_of_mem_filter hp
    exact ⟨(A p hp2).1, by rw [hL]; exact (A p hp2).2⟩
  · calc (s.sleeping.filter (fun p => p.1 ≠ tid)).length
        ≤ s.sleeping.length := List.length_filter_le _ _
      _ ≤ 1 := C
  · intro i c rc hm
    exact D i c rc (hsrc i c rc hm)

lemma start_preserves_inv (s : Sys) (t : Nat) (hinv : SysInv s) :
    SysInv (start_shutdown_timer s t) := by
  obtain ⟨A, B, C, D⟩ := hinv
  have hfreshwrites : timerWrites s.nextId s.log = [] := by
    rcases hw : timerWrites s.nextId s.log with _ | ⟨a, l⟩
    · rfl
    · exfalso
      have ha : a ∈ timerWrites s.nextId s.log := by rw [hw]; simp
      have ha2 := List.mem_of_mem_filter ha
      have ha3 := List.of_mem_filter ha
      cases a with
      | write src c rc =>
        cases src with
        | none => simp at ha3
        | some i =>
          have hieq : i = s.nextId := by simpa using ha3
          have hD := D i c rc ha2
          omega
      | sleepFor k => simp at ha3
      | spotifyPause => simp at ha3
      | warnNoSpotify => simp at ha3
      | warnUnknownStatus => simp at ha3
      | warnTimerStale => simp at ha3
  cases htask : s.shutdown_timer_task with
  | none =>
    have hsleep : s.sleeping = [] := by
      cases hs : s.sleeping with
      | nil => rfl
      | cons p l =>
        exfalso
        have hA := (A p (by rw [hs]; simp)).1
        rw [htask] at hA
        exact Option.noConfusion hA
    refine ⟨?_, ?_, ?_, ?_⟩
    · intro p hp
      simp only [start_shutdown_timer, htask, hsleep, List.nil_append,
        List.mem_singleton] at hp
      subst hp
      simp only [start_shutdown_timer, htask]
      exact ⟨by simp, hfreshwrites⟩
    · intro tid2 h2
      simp only [start_shutdown_timer, htask] at h2 ⊢
      injection h2 with h3
      omega
    · simp [start_shutdown_timer, htask, hsleep]
    · intro i c rc hm
      simp only [start_shutdown_timer, htask] at hm ⊢
      have := D i c rc hm
      omega
  | some tid =>
    have hsleepall : s.sleeping.filter (fun p => p.1 ≠ tid) = [] := by
      rw [List.filter_eq_nil_iff]
      intro p hp
      have h1 := (A p hp).1
      rw [htask] at h1
      injection h1 with h2
      simp [h2]
    refine ⟨?_, ?_, ?_, ?_⟩
    · intro p hp
      simp only [start_shutdown_timer, htask] at hp ⊢
      rw [hsleepall] at hp
      simp only [List.nil_append, List.mem_singleton] at hp
      subst hp
      exact ⟨rfl, hfreshwrites⟩
    · intro tid2 h2
      simp only [start_shutdown_timer, htask] at h2 ⊢
      injection h2 with h3
      omega
    · simp only [start_shutdown_timer, htask]
      rw [hsleepall]
      simp
    · intro i c rc hm
      simp only [start_shutdown_timer, htask] at hm ⊢
      have := D i c rc hm
      omega

lemma timerWrites_append_skip (id : Nat) (l : List Effect) (e : Effect)
    (he : ∀ c rc, e ≠ Effect.write (some id) c rc) :
    timerWrites id (l ++ [e]) = timerWrites id l := by
  rw [timerWrites_append, timerWrites_single_skip id e he, List.append_nil]

lemma SysInv_set_state (s : Sys) (st : State) (hinv : SysInv s) :
    SysInv { s with state := st } := by
  obtain ⟨A, B, C, D⟩ := hinv
  exact ⟨A, B, C, D⟩

lemma step_preserves_inv {s s2 : Sys} (h : Step s s2) (hinv : SysInv s) :
    SysInv s2 := by
  cases h with
  | volume v =>
    have hres : volume_handler s v =
        ⟨{ s.state with last_known_volume := v }, s.shutdown_timer_task,
          s.sleeping, s.nextId, s.spotify_handler,
          s.log ++ [Effect.write none
            (if v > s.state.last_known_volume then BeoCommand.VOLUME_UP
              else BeoCommand.VOLUME_DOWN) 1]⟩ := rfl
    rw [hres]
    refine SysInv_generic s _ _ _ ?_ ?_ hinv
    · intro id
      exact timerWrites_append_skip id s.log _ (by intro c rc; simp)
    · intro i c rc hm
      rcases List.mem_append.mp hm with hm | hm
      · exact hm
      · simp at hm
  | playback raw =>
    by_cases hshort : raw = s.state.last_known_playback_status.value
    · have hres : playback_handler s raw = s := by
        simp [playback_handler, hshort]
      rw [hres]
      exact hinv
    · cases hparse : PlaybackStatus.fromValue raw with
      | none =>
        have hres : playback_handler s raw =
            ⟨{ s.state with last_known_playback_status := .UNKNOWN },
              s.shutdown_timer_task, s.sleeping, s.nextId, s.spotify_handler,
              s.log ++ [Effect.warnUnknownStatus]⟩ := by
          simp [playback_handler, hshort, hparse]
        rw [hres]
        refine SysInv_generic s _ _ _ ?_ ?_ hinv
        · intro id
          exact timerWrites_append_skip id s.log _ (by intro c rc; simp)
        · intro i c rc hm
          rcases List.mem_append.mp hm with hm | hm
          · exact hm
          · simp at hm
      | some ps =>
        cases ps with
        | PLAYING =>
          cases htask : s.shutdown_timer_task with
          | none =>
            have hres : playback_handler s raw =
                ⟨{ s.state with last_known_playback_status := .PLAYING },
                  s.shutdown_timer_task, s.sleeping, s.nextId,
                  s.spotify_handler,
                  s.log ++ [Effect.write none BeoCommand.AUDIO_AUX 1]⟩ := by
              simp [playback_handler, hshort, hparse, htask]
            rw [hres]
            refine SysInv_generic s _ _ _ ?_ ?_ hinv
            · intro id
              exact timerWrites_append_skip id s.log _ (by intro c rc; simp)
            · intro i c rc hm
              rcases List.mem_append.mp hm with hm | hm
              · exact hm
              · simp at hm
          | some tid =>
            have hres : playback_handler s raw =
                ⟨{ s.state with last_known_playback_status := .PLAYING },
                  s.shutdown_timer_task,
                  s.sleeping.filter (fun p => p.1 ≠ tid), s.nextId,
                  s.spotify_handler,
                  s.log ++ [Effect.write none BeoCommand.AUDIO_AUX 1]⟩ := by
              simp [playback_handler, hshort, hparse, htask]
            rw [hres]
            refine SysInv_filtered s _ _ _ tid ?_ ?_ hinv
            · intro id
              exact timerWrites_append_skip id s.log _ (by intro c rc; simp)
            · intro i c rc hm
              rcases List.mem_append.mp hm with hm | hm
              · exact hm
              · simp at hm
        | PAUSED =>
          by_cases hstop : s.state.last_known_playback_status =
              PlaybackStatus.STOPPED
          · rw [hstop] at hshort
            have hres : playback_handler s raw =
                { start_shutdown_timer
                    { s with log :=
                      s.log ++ [Effect.write none BeoCommand.AUDIO_AUX 1] }
                    FIFTEEN_MINUTES with
                  state := { (start_shutdown_timer
                    { s with log :=
                      s.log ++ [Effect.write none BeoCommand.AUDIO_AUX 1] }
                    FIFTEEN_MINUTES).state with
                      last_known_playback_status := .PAUSED } } := by
              simp [playback_handler, hshort, hparse, hstop]
            rw [hres]
            apply SysInv_set_state
            apply start_preserves_inv
            have h2 : ({ s with log :=
                s.log ++ [Effect.write none BeoCommand.AUDIO_AUX 1] } : Sys) =
                ⟨s.state, s.shutdown_timer_task, s.sleeping, s.nextId,
                  s.spotify_handler,
                  s.log ++ [Effect.write none BeoCommand.AUDIO_AUX 1]⟩ := rfl
            rw [h2]
            refine SysInv_generic s _ _ _ ?_ ?_ hinv
            · intro id
              exact timerWrites_append_skip id s.log _ (by intro c rc; simp)
            · intro i c rc hm
              rcases List.mem_append.mp hm with hm | hm
              · exact hm
              · simp at hm
          · have hres : playback_handler s raw =
                { start_shutdown_timer s FIFTEEN_MINUTES with
                  state := { (start_shutdown_timer s FIFTEEN_MINUTES).state
                    with last_known_playback_status := .PAUSED } } := by
              simp [playback_handler, hshort, hparse, hstop]
            rw [hres]
            exact SysInv_set_state _ _ (start_preserves_inv s _ hinv)
        | STOPPED =>
          have hres : playback_handler s raw =
              { start_shutdown_timer s FIVE_MINUTES with
                state := { (start_shutdown_timer s FIVE_MINUTES).state with
                  last_known_playback_status := .STOPPED } } := by
            simp [playback_handler, hshort, hparse]
          rw [hres]
          exact SysInv_set_state _ _ (start_preserves_inv s _ hinv)
        | UNKNOWN =>
          have hres : playback_handler s raw =
              { s with state := { s.state with
                last_known_playback_status := .UNKNOWN } } := by
            simp [playback_handler, hshort, hparse]
          rw [hres]
          exact SysInv_set_state s _ hinv
  | power_off =>
    cases hspot : s.spotify_handler with
    | none =>
      cases htask : s.shutdown_timer_task with
      | none =>
        have hres : power_off_handler s =
            ⟨{ s.state with last_known_playback_status := .PAUSED },
              s.shutdown_timer_task, s.sleeping, s.nextId, s.spotify_handler,
              s.log ++ [Effect.write none BeoCommand.VOLUME_DOWN 10,
                Effect.sleepFor 1, Effect.warnNoSpotify,
                Effect.write none BeoCommand.AUDIO_POWER_OFF 1]⟩ := by
          simp [power_off_handler, hspot, htask]
        rw [hres]
        refine SysInv_generic s _ _ _ ?_ ?_ hinv
        · intro id
          simp [timerWrites, List.filter_append]
        · intro i c rc hm
          rcases List.mem_append.mp hm with hm | hm
          · exact hm
          · simp at hm
      | some tid =>
        have hres : power_off_handler s =
            ⟨{ s.state with last_known_playback_status := .PAUSED },
              s.shutdown_timer_task,
              s.sleeping.filter (fun p => p.1 ≠ tid), s.nextId,
              s.spotify_handler,
              s.log ++ [Effect.write none BeoCommand.VOLUME_DOWN 10,
                Effect.sleepFor 1, Effect.warnNoSpotify,
                Effect.write none BeoCommand.AUDIO_POWER_OFF 1]⟩ := by
          simp [power_off_handler, hspot, htask]
        rw [hres]
        refine SysInv_filtered s _ _ _ tid ?_ ?_ hinv
        · intro id
          simp [timerWrites, List.filter_append]
        · intro i c rc hm
          rcases List.mem_append.mp hm with hm | hm
          · exact hm
          · simp at hm
    | some u =>
      cases htask : s.shutdown_timer_task with
      | none =>
        have hres : power_off_handler s =
            ⟨{ s.state with last_known_playback_status := .PAUSED },
              s.shutdown_timer_task, s.sleeping, s.nextId, s.spotify_handler,
              s.log ++ [Effect.write none BeoCommand.VOLUME_DOWN 10,
                Effect.sleepFor 1, Effect.spotifyPause,
                Effect.write none BeoCommand.AUDIO_POWER_OFF 1]⟩ := by
          simp [power_off_handler, hspot, htask]
        rw [hres]
        refine SysInv_generic s _ _ _ ?_ ?_ hinv
        · intro id
          simp [timerWrites, List.filter_append]
        · intro i c rc hm
          rcases List.mem_append.mp hm with hm | hm
          · exact hm
          · simp at hm
      | some tid =>
        have hres : power_off_handler s =
            ⟨{ s.state with last_known_playback_status := .PAUSED },
              s.shutdown_timer_task,
              s.sleeping.filter (fun p => p.1 ≠ tid), s.nextId,
              s.spotify_handler,
              s.log ++ [Effect.write none BeoCommand.VOLUME_DOWN 10,
                Effect.sleepFor 1, Effect.spotifyPause,
                Effect.write none BeoCommand.AUDIO_POWER_OFF 1]⟩ := by
          simp [power_off_handler, hspot, htask]
        rw [hres]
        refine SysInv_filtered s _ _ _ tid ?_ ?_ hinv
        · intro id
          simp [timerWrites, List.filter_append]
        · intro i c rc hm
          rcases List.mem_append.mp hm with hm | hm
          · exact hm
          · simp at hm
  | timer_fire fid timeout hmem =>
    obtain ⟨A, B, C, D⟩ := hinv
    have htid : s.shutdown_timer_task = some fid := (A _ hmem).1
    have hfidlt : fid < s.nextId := B fid htid
    have hsleepnil : s.sleeping.filter (fun p => p.1 ≠ fid) = [] := by
      rw [List.filter_eq_nil_iff]
      intro p hp
      have h1 := (A p hp).1
      rw [htid] at h1
      injection h1 with h2
      simp [h2]
    cases hwake : shutdown_timer_wake s.state with
    | none =>
      have hres : shutdown_timer_fire s fid =
          ⟨s.state, s.shutdown_timer_task,
            s.sleeping.filter (fun p => p.1 ≠ fid), s.nextId,
            s.spotify_handler, s.log ++ [Effect.warnTimerStale]⟩ := by
        simp [shutdown_timer_fire, hwake]
      rw [hres]
      refine ⟨?_, B, ?_, ?_⟩
      · intro p hp
        rw [hsleepnil] at hp
        simp at hp
      · simp only [hsleepnil]
        simp
      · intro i c rc hm
        rcases List.mem_append.mp hm with hm | hm
        · exact D i c rc hm
        · simp at hm
    | some cr =>
      have hres : shutdown_timer_fire s fid =
          ⟨s.state, s.shutdown_timer_task,
            s.sleeping.filter (fun p => p.1 ≠ fid), s.nextId,
            s.spotify_handler,
            s.log ++ [Effect.write (some fid) cr.1 cr.2]⟩ := by
        simp [shutdown_timer_fire, hwake]
      rw [hres]
      refine ⟨?_, B, ?_, ?_⟩
      · intro p hp
        rw [hsleepnil] at hp
        simp at hp
      · simp only [hsleepnil]
        simp
      · intro i c rc hm
        rcases List.mem_append.mp hm with hm | hm
        · exact D i c rc hm
        · simp only [List.mem_singleton] at hm
          injection hm with h1 h2 h3
          injection h1 with h1
          show i < s.nextId
          omega
  | session hs =>
    exact ⟨hinv.1, hinv.2.1, hinv.2.2.1, hinv.2.2.2⟩

/-- A timer task that is out of the sleepers, has an identity below the
freshness counter and has never written: it can never write again (no step
resurrects it). -/
def deadTimer (s : Sys) (id : Nat) : Prop :=
  id < s.nextId ∧ (∀ p ∈ s.sleeping, p.1 ≠ id) ∧ timerWrites id s.log = []

lemma timerWrites_eq_nil_of_not_mem (id : Nat) (es : List Effect)
    (h : ∀ c rc, Effect.write (some id) c rc ∉ es) :
    timerWrites id es = [] := by
  rw [timerWrites, List.filter_eq_nil_iff]
  intro a ha
  cases a with
  | write src c rc =>
    cases src with
    | none => simp
    | some i =>
      by_cases hi : i = id
      · subst hi
        exact absurd ha (h c rc)
      · simp [hi]
  | sleepFor k => simp
  | spotifyPause => simp
  | warnNoSpotify => simp
  | warnUnknownStatus => simp
  | warnTimerStale => simp

/-- Everything any one step can do to the timer bookkeeping: the freshness
counter never decreases, a task sleeping afterwards either slept before or
is fresh, and every timer write the step appends was made by a task that
was sleeping before the step. -/
lemma step_log_extension {s s2 : Sys} (h : Step s s2) :
    s.nextId ≤ s2.nextId ∧
    (∀ p ∈ s2.sleeping, p ∈ s.sleeping ∨ s.nextId ≤ p.1) ∧
    ∃ es, s2.log = s.log ++ es ∧
      ∀ i c rc, Effect.write (some i) c rc ∈ es →
        ∃ tmo, (i, tmo) ∈ s.sleeping := by
  cases h with
  | volume v =>
    refine ⟨le_refl _, ?_, ?_⟩
    · intro p hp
      exact Or.inl hp
    · refine ⟨[Effect.write none
        (if v > s.state.last_known_volume then BeoCommand.VOLUME_UP
          else BeoCommand.VOLUME_DOWN) 1], rfl, ?_⟩
      intro i c rc hm
      simp at hm
  | playback raw =>
    by_cases hshort : raw = s.state.last_known_playback_status.value
    · have hres : playback_handler s raw = s := by
        simp [playback_handler, hshort]
      rw [hres]
      exact ⟨le_refl _, fun p hp => Or.inl hp,
        [], (List.append_nil _).symm, fun i c rc hm => by simp at hm⟩
    · cases hparse : PlaybackStatus.fromValue raw with
      | none =>
        have hres : playback_handler s raw =
            ⟨{ s.state with last_known_playback_status := .UNKNOWN },
              s.shutdown_timer_task, s.sleeping, s.nextId, s.spotify_handler,
              s.log ++ [Effect.warnUnknownStatus]⟩ := by
          simp [playback_handler, hshort, hparse]
        rw [hres]
        exact ⟨le_refl _, fun p hp => Or.inl hp,
          [Effect.warnUnknownStatus], rfl, fun i c rc hm => by simp at hm⟩
      | some ps =>
        cases ps with
        | PLAYING =>
          cases htask : s.shutdown_timer_task with
          | none =>
            have hres : playback_handler s raw =
                ⟨{ s.state with last_known_playback_status := .PLAYING },
                  s.shutdown_timer_task, s.sleeping, s.nextId,
                  s.spotify_handler,
                  s.log ++ [Effect.write none BeoCommand.AUDIO_AUX 1]⟩ := by
              simp [playback_handler, hshort, hparse, htask]
            rw [hres]
            exact ⟨le_refl _, fun p hp => Or.inl hp,
              [Effect.write none BeoCommand.AUDIO_AUX 1], rfl,
              fun i c rc hm => by simp at hm⟩
          | some tid =>
            have hres : playback_handler s raw =
                ⟨{ s.state with last_known_playback_status := .PLAYING },
                  s.shutdown_timer_task,
                  s.sleeping.filter (fun p => p.1 ≠ tid), s.nextId,
                  s.spotify_handler,
                  s.log ++ [Effect.write none BeoCommand.AUDIO_AUX 1]⟩ := by
              simp [playback_handler, hshort, hparse, htask]
            rw [hres]
            exact ⟨le_refl _, fun p hp => Or.inl (List.mem_of_mem_filter hp),
              [Effect.write none BeoCommand.AUDIO_AUX 1], rfl,
              fun i c rc hm => by simp at hm⟩
        | PAUSED =>
          by_cases hstop : s.state.last_known_playback_status =
              PlaybackStatus.STOPPED
          · rw [hstop] at hshort
            have hres : playback_handler s raw =
                { start_shutdown_timer
                    { s with log :=
                      s.log ++ [Effect.write none BeoCommand.AUDIO_AUX 1] }
                    FIFTEEN_MINUTES with
                  state := { (start_shutdown_timer
                    { s with log :=
                      s.log ++ [Effect.write none BeoCommand.AUDIO_AUX 1] }
                    FIFTEEN_MINUTES).state with
                      last_known_playback_status := .PAUSED } } := by
              simp [playback_handler, hshort, hparse, hstop]
            rw [hres]
            cases htask : s.shutdown_timer_task with
            | none =>
              refine ⟨?_, ?_, ?_⟩
              · simp [start_shutdown_timer, htask]
              · intro p hp
                simp only [start_shutdown_timer, htask] at hp
                rcases List.mem_append.mp hp with hp | hp
                · exact Or.inl hp
                · simp at hp
                  subst hp
                  exact Or.inr (le_refl _)
              · refine ⟨[Effect.write none BeoCommand.AUDIO_AUX 1], ?_, ?_⟩
                · simp [start_shutdown_timer, htask]
                · intro i c rc hm
                  simp at hm
            | some tid =>
              refine ⟨?_, ?_, ?_⟩
              · simp [start_shutdown_timer, htask]
              · intro p hp
                simp only [start_shutdown_timer, htask] at hp
                rcases List.mem_append.mp hp with hp | hp
                · exact Or.inl (List.mem_of_mem_filter hp)
                · simp at hp
                  subst hp
                  exact Or.inr (le_refl _)
              · refine ⟨[Effect.write none BeoCommand.AUDIO_AUX 1], ?_, ?_⟩
                · simp [start_shutdown_timer, htask]
                · intro i c rc hm
                  simp at hm
          · have hres : playback_handler s raw =
                { start_shutdown_timer s FIFTEEN_MINUTES with
                  state := { (start_shutdown_timer s FIFTEEN_MINUTES).state
                    with last_known_playback_status := .PAUSED } } := by
              simp [playback_handler, hshort, hparse, hstop]
            rw [hres]
            cases htask : s.shutdown_timer_task with
            | none =>
              refine ⟨?_, ?_, ?_⟩
              · simp [start_shutdown_timer, htask]
              · intro p hp
                simp only [start_shutdown_timer, htask] at hp
                rcases List.mem_append.mp hp with hp | hp
                · exact Or.inl hp
                · simp at hp
                  subst hp
                  exact Or.inr (le_refl _)
              · exact ⟨[], by simp [start_shutdown_timer, htask],
                  fun i c rc hm => by simp at hm⟩
            | some tid =>
              refine ⟨?_, ?_, ?_⟩
              · simp [start_shutdown_timer, htask]
              · intro p hp
                simp only [start_shutdown_timer, htask] at hp
                rcases List.mem_append.mp hp with hp | hp
                · exact Or.inl (List.mem_of_mem_filter hp)
                · simp at hp
                  subst hp
                  exact Or.inr (le_refl _)
              · exact ⟨[], by simp [start_shutdown_timer, htask],
                  fun i c rc hm => by simp at hm⟩
        | STOPPED =>
          have hres : playback_handler s raw =
              { start_shutdown_timer s FIVE_MINUTES with
                state := { (start_shutdown_timer s FIVE_MINUTES).state with
                  last_known_playback_status := .STOPPED } } := by
            simp [playback_handler, hshort, hparse]
          rw [hres]
          cases htask : s.shutdown_timer_task with
          | none =>
            refine ⟨?_, ?_, ?_⟩
            · simp [start_shutdown_timer, htask]
            · intro p hp
              simp only [start_shutdown_timer, htask] at hp
              rcases List.mem_append.mp hp with hp | hp
              · exact Or.inl hp
              · simp at hp
                subst hp
                exact Or.inr (le_refl _)
            · exact ⟨[], by simp [start_shutdown_timer, htask],
                fun i c rc hm => by simp at hm⟩
          | some tid =>
            refine ⟨?_, ?_, ?_⟩
            · simp [start_shutdown_timer, htask]
            · intro p hp
              simp only [start_shutdown_timer, htask] at hp
              rcases List.mem_append.mp hp with hp | hp
              · exact Or.inl (List.mem_of_mem_filter hp)
              · simp at hp
                subst hp
                exact Or.inr (le_refl _)
            · exact ⟨[], by simp [start_shutdown_timer, htask],
                fun i c rc hm => by simp at hm⟩
        | UNKNOWN =>
          have hres : playback_handler s raw =
              { s with state := { s.state with
                last_known_playback_status := .UNKNOWN } } := by
            simp [playback_handler, hshort, hparse]
          rw [hres]
          exact ⟨le_refl _, fun p hp => Or.inl hp,
            [], (List.append_nil _).symm, fun i c rc hm => by simp at hm⟩
  | power_off =>
    have hsleep2 : ∀ p ∈ (power_off_handler s).sleeping, p ∈ s.sleeping := by
      intro p hp
      cases hspot : s.spotify_handler <;>
        cases htask : s.shutdown_timer_task <;>
          simp only [power_off_handler, hspot, htask] at hp
      · exact hp
      · exact List.mem_of_mem_filter hp
      · exact hp
      · exact List.mem_of_mem_filter hp
    have hnid : (power_off_handler s).nextId = s.nextId := by
      cases hspot : s.spotify_handler <;>
        cases htask : s.shutdown_timer_task <;>
          simp [power_off_handler, hspot, htask]
    refine ⟨le_of_eq hnid.symm, fun p hp => Or.inl (hsleep2 p hp), ?_⟩
    cases hspot : s.spotify_handler with
    | none =>
      refine ⟨[Effect.write none BeoCommand.VOLUME_DOWN 10, Effect.sleepFor 1,
        Effect.warnNoSpotify, Effect.write none BeoCommand.AUDIO_POWER_OFF 1],
        ?_, ?_⟩
      · cases htask : s.shutdown_timer_task <;>
          simp [power_off_handler, hspot, htask]
      · intro i c rc hm
        simp at hm
    | some u =>
      refine ⟨[Effect.write none BeoCommand.VOLUME_DOWN 10, Effect.sleepFor 1,
        Effect.spotifyPause, Effect.write none BeoCommand.AUDIO_POWER_OFF 1],
        ?_, ?_⟩
      · cases htask : s.shutdown_timer_task <;>
          simp [power_off_handler, hspot, htask]
      · intro i c rc hm
        simp at hm
  | timer_fire fid timeout hmem =>
    cases hwake : shutdown_timer_wake s.state with
    | none =>
      have hres : shutdown_timer_fire s fid =
          ⟨s.state, s.shutdown_timer_task,
            s.sleeping.filter (fun p => p.1 ≠ fid), s.nextId,
            s.spotify_handler, s.log ++ [Effect.warnTimerStale]⟩ := by
        simp [shutdown_timer_fire, hwake]
      rw [hres]
      exact ⟨le_refl _, fun p hp => Or.inl (List.mem_of_mem_filter hp),
        [Effect.warnTimerStale], rfl, fun i c rc hm => by simp at hm⟩
    | some cr =>
      have hres : shutdown_timer_fire s fid =
          ⟨s.state, s.shutdown_timer_task,
            s.sleeping.filter (fun p => p.1 ≠ fid), s.nextId,
            s.spotify_handler,
            s.log ++ [Effect.write (some fid) cr.1 cr.2]⟩ := by
        simp [shutdown_timer_fire, hwake]
      rw [hres]
      refine ⟨le_refl _, fun p hp => Or.inl (List.mem_of_mem_filter hp),
        [Effect.write (some fid) cr.1 cr.2], rfl, ?_⟩
      intro i c rc hm
      simp only [List.mem_singleton] at hm
      injection hm with h1 h2 h3
      injection h1 with h1
      subst h1
      exact ⟨timeout, hmem⟩
  | session hs =>
    exact ⟨le_refl _, fun p hp => Or.inl hp,
      [], (List.append_nil _).symm, fun i c rc hm => by simp at hm⟩

lemma step_preserves_dead {s s2 : Sys} (h : Step s s2) (id : Nat)
    (hd : deadTimer s id) : deadTimer s2 id := by
  obtain ⟨h1, h2, h3⟩ := hd
  obtain ⟨hmono, hsleep, es, hlog, hes⟩ := step_log_extension h
  refine ⟨lt_of_lt_of_le h1 hmono, ?_, ?_⟩
  · intro p hp
    rcases hsleep p hp with hp2 | hp2
    · exact h2 p hp2
    · omega
  · rw [hlog, timerWrites_append, h3, List.nil_append]
    apply timerWrites_eq_nil_of_not_mem
    intro c rc hmem
    obtain ⟨tmo, hmem2⟩ := hes id c rc hmem
    exact h2 (id, tmo) hmem2 rfl

lemma init_inv : SysInv initSys := by
  refine ⟨?_, ?_, ?_, ?_⟩ <;> simp [initSys]

lemma reach_inv {s : Sys} (h : Reach s) : SysInv s := by
  unfold Reach at h
  induction h with
  | refl => exact init_inv
  | tail h1 h2 ih => exact step_preserves_inv h2 ih

lemma dead_stays_dead {s s2 : Sys} (h : Relation.ReflTransGen Step s s2)
    (id : Nat) (hd : deadTimer s id) : deadTimer s2 id := by
  induction h with
  | refl => exact hd
  | tail h1 h2 ih => exact step_preserves_dead h2 id ih

lemma armed_excludes (s : Sys) (t tid : Nat) (hlt : tid < s.nextId)
    (htask : s.shutdown_timer_task = some tid) :
    ∀ p ∈ (start_shutdown_timer s t).sleeping, p.1 ≠ tid := by
  intro p hp
  simp only [start_shutdown_timer, htask] at hp
  rcases List.mem_append.mp hp with hp | hp
  · have := List.of_mem_filter hp
    simpa using this
  · simp only [List.mem_singleton] at hp
    subst hp
    simp only
    omega

/-- C5.  In every reachable coordinator state at most one shutdown timer
task is sleeping (first conjunct).  Arming a timer always cancels the
previously referenced task first: no task sleeping after
`start_shutdown_timer` is the previously referenced one (second conjunct).
And a timer superseded while it was still sleeping never performs its
action: after arming a new timer over a still-sleeping referenced task,
that task writes nothing (in particular no `AUDIO_POWER_OFF`) in any
sequence of further steps (third conjunct). -/
theorem raspessence_C5_timer_supersession :
    (∀ s, Reach s → s.sleeping.length ≤ 1) ∧
    (∀ s t tid, Reach s → s.shutdown_timer_task = some tid →
      ∀ p ∈ (start_shutdown_timer s t).sleeping, p.1 ≠ tid) ∧
    (∀ s t tid tmo, Reach s → s.shutdown_timer_task = some tid →
      (tid, tmo) ∈ s.sleeping →
      ∀ s2, Relation.ReflTransGen Step (start_shutdown_timer s t) s2 →
        timerWrites tid s2.log = []) := by
  refine ⟨?_, ?_, ?_⟩
  · intro s hr
    exact (reach_inv hr).2.2.1
  · intro s t tid hr htask p hp
    exact armed_excludes s t tid ((reach_inv hr).2.1 tid htask) htask p hp
  · intro s t tid tmo hr htask hmem s2 hsteps
    obtain ⟨A, B, C, D⟩ := reach_inv hr
    have hlt : tid < s.nextId := B tid htask
    have hdead : deadTimer (start_shutdown_timer s t) tid := by
      refine ⟨?_, armed_excludes s t tid hlt htask, ?_⟩
      · have : (start_shutdown_timer s t).nextId = s.nextId + 1 := by
          cases htask2 : s.shutdown_timer_task <;>
            simp [start_shutdown_timer, htask2]
        omega
      · have hlog : (start_shutdown_timer s t).log = s.log := by
          cases htask2 : s.shutdown_timer_task <;>
            simp [start_shutdown_timer, htask2]
        rw [hlog]
        exact (A (tid, tmo) hmem).2
    exact (dead_stays_dead hsteps tid hdead).2.2

/-- Witness for C5: after a "Stopped" event from startup the 5-minute
timer task 0 is the only sleeper; arming the 15-minute timer over it
removes it, and task 0 has written nothing at that point. -/
theorem raspessence_C5_timer_supersession_witness :
    (playback_handler initSys "Stopped").sleeping.length ≤ 1 ∧
    ((1 : Nat), FIFTEEN_MINUTES).1 ≠ 0 ∧
    timerWrites 0 (start_shutdown_timer (playback_handler initSys "Stopped")
      FIFTEEN_MINUTES).log = [] := by
  have hreach : Reach (playback_handler initSys "Stopped") :=
    Relation.ReflTransGen.single (Step.playback initSys "Stopped")
  refine ⟨raspessence_C5_timer_supersession.1 _ hreach, ?_, ?_⟩
  · exact raspessence_C5_timer_supersession.2.1 _ FIFTEEN_MINUTES 0 hreach
      (by decide) (1, FIFTEEN_MINUTES) (by decide)
  · exact raspessence_C5_timer_supersession.2.2 _ FIFTEEN_MINUTES 0
      FIVE_MINUTES hreach (by decide) (by decide) _
      Relation.ReflTransGen.refl
